import Mathlib

set_option maxHeartbeats 1000000

namespace ClaudeDify

/-! Shallow embedding of the evaluation-and-aggregation engine of the
claude-dify repository (src/claude_dify/src/services/playwrightService.js and
src/claude_dify/src/config/evaluationCriteria.js, including the extended
criteria merged by evaluationCriteriaExtended).  Browser effects (page reads,
screenshot capture, storage upload, clocks) are abstracted as environment
functions supplied by the caller; everything the JavaScript computes from their
results is translated literally. -/

/-- Outcome object returned by a criterion check function
(src/config/evaluationCriteria.js).  `status` is one of the string literals
"pass", "fail", "warning", "info" in every check of the registry; `details` is a
human-readable string; `recommendations` is an optional array (`none` models a
JS object without the field, which `performEvaluation` replaces with `[]` via
`result.recommendations || []`). -/
structure CheckOutcome where
  status : String
  details : String
  recommendations : Option (List String)
  deriving Repr, DecidableEq

/-- Static part of a criterion definition (src/config/evaluationCriteria.js):
`id`, `name`, `description`, `impact`.  The attached `check` function is
dynamic (it reads the live page), so its behaviour is supplied separately as an
environment function keyed by `id`. -/
structure Criterion where
  id : String
  name : String
  description : String
  impact : String
  deriving Repr, DecidableEq

/-- One entry of the `results` array built by `performEvaluation`
(playwrightService.js lines 260-299). -/
structure EvaluationResult where
  category : String
  id : String
  name : String
  description : String
  impact : String
  status : String
  details : String
  recommendations : List String
  checkTime : Nat
  deriving Repr, DecidableEq

/-- Abstract live-page state threaded through the run.  The only page state the
claims are about is the viewport size (mutated by `page.setViewportSize` in
`takeScreenshots` and in the use-001 check). -/
structure PageSt where
  viewport : Nat × Nat
  deriving Repr, DecidableEq

/-- Record of one invocation of a criterion check: the category and id under
iteration, the extra timing argument passed (only perf-001 receives one,
playwrightService.js lines 251-256), and the page viewport observed by the
check at invocation time. -/
structure Invocation where
  category : String
  id : String
  timingArg : Option Int
  viewport : Nat × Nat
  deriving Repr, DecidableEq

/-- Dynamic behaviour of one check invocation, supplied by the environment:
either the outcome together with the elapsed milliseconds
(`Date.now() - startTime` in the JS), or the message of a thrown/rejected
error. -/
def CheckBehavior : Type := String → Except String (CheckOutcome × Nat)

/-- Viewport mutation performed by a criterion check, read off from the source
of every check in the registry: the use-001 (Mobile Responsive) check calls
`page.setViewportSize({ width: 375, height: 667 })` as its first action and
never restores the previous size (evaluationCriteria.js lines 355-370); no
other check in the registry calls `setViewportSize`. -/
def viewportEffect (id : String) (v : Nat × Nat) : Nat × Nat :=
  if id = "use-001" then (375, 667) else v

/-- Loop state of `performEvaluation`: the `results` array and the
`totalItems` / `passedItems` counters (playwrightService.js lines 235-237),
plus the instrumentation (invocation trace and page state) that makes the
side effects of the loop observable in the embedding. -/
structure EvalState where
  results : List EvaluationResult
  totalItems : Nat
  passedItems : Nat
  trace : List Invocation
  page : PageSt
  deriving Repr, DecidableEq

/-- Body of the inner loop of `performEvaluation` (playwrightService.js lines
245-301) for one criterion: increment `totalItems`, invoke the check (passing
`Date.now() - navigationTime` as an extra argument exactly when the id is
"perf-001"), and either push the wrapped outcome and bump `passedItems` on
status "pass", or push the synthesized error result with `status = "error"`,
`checkTime = 0` and the single generic recommendation. -/
def evalStep (b : CheckBehavior) (timingBase : Int) (category : String)
    (c : Criterion) (s : EvalState) : EvalState :=
  let timingArg : Option Int := if c.id = "perf-001" then some timingBase else none
  let inv : Invocation := ⟨category, c.id, timingArg, s.page.viewport⟩
  let page' : PageSt := ⟨viewportEffect c.id s.page.viewport⟩
  match b c.id with
  | .ok (outcome, elapsed) =>
      { results := s.results ++ [{
          category := category
          id := c.id
          name := c.name
          description := c.description
          impact := c.impact
          status := outcome.status
          details := outcome.details
          recommendations := outcome.recommendations.getD []
          checkTime := elapsed }]
        totalItems := s.totalItems + 1
        passedItems := s.passedItems + (if outcome.status = "pass" then 1 else 0)
        trace := s.trace ++ [inv]
        page := page' }
  | .error msg =>
      { results := s.results ++ [{
          category := category
          id := c.id
          name := c.name
          description := c.description
          impact := c.impact
          status := "error"
          details := "Evaluation failed: " ++ msg
          recommendations := ["Unable to evaluate - check page accessibility"]
          checkTime := 0 }]
        totalItems := s.totalItems + 1
        passedItems := s.passedItems
        trace := s.trace ++ [inv]
        page := page' }

/-- Inner `for (const criterion of criteria)` loop of `performEvaluation`. -/
def runCriteria (b : CheckBehavior) (timingBase : Int) (category : String)
    (crits : List Criterion) (s : EvalState) : EvalState :=
  crits.foldl (fun s c => evalStep b timingBase category c s) s

/-- Outer `for (const [category, criteria] of Object.entries(...))` loop of
`performEvaluation`; `Object.entries` enumerates the registry object in
insertion order, modelled by a list of (category, criteria) pairs. -/
def runRegistry (b : CheckBehavior) (timingBase : Int)
    (registry : List (String × List Criterion)) (s : EvalState) : EvalState :=
  registry.foldl (fun s p => runCriteria b timingBase p.1 p.2 s) s

/-- `Math.round((passedItems / totalItems) * 100)` for `totalItems > 0`
(playwrightService.js line 304), modelled as exact half-up rounding of the
rational `100 * p / t`: `(200 * p + t) / (2 * t)` in truncating Nat
division. -/
def jsRound100 (p t : Nat) : Nat :=
  (200 * p + t) / (2 * t)

/-- The `categories` object of the summary: per-category counts of the results
array (playwrightService.js lines 315-321). -/
structure CategoryCounts where
  accessibility : Nat
  performance : Nat
  seo : Nat
  security : Nat
  usability : Nat
  deriving Repr, DecidableEq

/-- The `summary` object built at the end of `performEvaluation`
(playwrightService.js lines 310-322). -/
structure Summary where
  total : Nat
  passed : Nat
  failed : Nat
  score : Nat
  categories : CategoryCounts
  deriving Repr, DecidableEq

/-- The value returned by `performEvaluation`: `{ items, summary }`
(playwrightService.js lines 308-323). -/
structure Analysis where
  items : List EvaluationResult
  summary : Summary
  deriving Repr, DecidableEq

/-- Return value of the embedded `performEvaluation` together with the
instrumentation of its side effects: the invocation trace and the final page
state. -/
structure EvalOutput where
  analysis : Analysis
  trace : List Invocation
  page : PageSt
  deriving Repr, DecidableEq

/-- Number of results in `rs` whose `category` field is `cat`
(`results.filter(r => r.category === cat).length`). -/
def countCat (cat : String) (rs : List EvaluationResult) : Nat :=
  List.countP (fun r => r.category == cat) rs

/-- `performEvaluation(page, navigationTime)` (playwrightService.js lines
234-324).  The registry is the imported criteria module (instantiated with
`fullEvaluationCriteria` by `analyzeUrl`); `b` gives the dynamic behaviour of
each check; `now` is the abstracted `Date.now()` used for the perf-001 timing
argument `Date.now() - navigationTime`; `page0` is the page state at entry. -/
def performEvaluation (registry : List (String × List Criterion))
    (b : CheckBehavior) (navigationTime now : Int) (page0 : PageSt) : EvalOutput :=
  let s := runRegistry b (now - navigationTime) registry ⟨[], 0, 0, [], page0⟩
  let score := if s.totalItems > 0 then jsRound100 s.passedItems s.totalItems else 0
  { analysis :=
      { items := s.results
        summary :=
          { total := s.totalItems
            passed := s.passedItems
            failed := s.totalItems - s.passedItems
            score := score
            categories :=
              { accessibility := countCat "accessibility" s.results
                performance := countCat "performance" s.results
                seo := countCat "seo" s.results
                security := countCat "security" s.results
                usability := countCat "usability" s.results } } }
    trace := s.trace
    page := s.page }

/-- The accessibility criteria: a11y-001 to a11y-005 from evaluationCriteria.js
followed by a11y-006 to a11y-015 from the extended module. -/
def accessibilityCriteria : List Criterion :=
  [⟨"a11y-001", "Color Contrast Ratio", "Text has sufficient color contrast ratio (minimum 4.5:1)", "critical"⟩,
   ⟨"a11y-002", "Alt Text for Images", "All images have descriptive alt text", "major"⟩,
   ⟨"a11y-003", "Heading Structure", "Proper heading hierarchy (h1-h6)", "major"⟩,
   ⟨"a11y-004", "ARIA Labels", "Interactive elements have appropriate ARIA labels", "major"⟩,
   ⟨"a11y-005", "Keyboard Navigation", "All interactive elements are keyboard accessible", "critical"⟩,
   ⟨"a11y-006", "Focus Indicators", "Visible focus indicators for keyboard navigation", "major"⟩,
   ⟨"a11y-007", "Form Labels", "All form inputs have associated labels", "critical"⟩,
   ⟨"a11y-008", "Link Purpose", "Links have clear and descriptive text", "major"⟩,
   ⟨"a11y-009", "Error Identification", "Form errors are clearly identified", "major"⟩,
   ⟨"a11y-010", "Language Declaration", "Page language is declared", "minor"⟩,
   ⟨"a11y-011", "Skip Links", "Skip navigation links are provided", "minor"⟩,
   ⟨"a11y-012", "Color Independence", "Information not conveyed by color alone", "major"⟩,
   ⟨"a11y-013", "Text Resize", "Text can be resized up to 200% without loss of functionality", "minor"⟩,
   ⟨"a11y-014", "Audio/Video Controls", "Media elements have proper controls", "major"⟩,
   ⟨"a11y-015", "ARIA Landmarks", "Page uses ARIA landmarks appropriately", "minor"⟩]

/-- The performance criteria: perf-001 to perf-003 plus extended perf-004 to
perf-008. -/
def performanceCriteria : List Criterion :=
  [⟨"perf-001", "Page Load Time", "Page loads within 3 seconds", "critical"⟩,
   ⟨"perf-002", "Image Optimization", "Images are properly optimized", "major"⟩,
   ⟨"perf-003", "CSS Optimization", "CSS is optimized and minified", "minor"⟩,
   ⟨"perf-004", "HTTP Requests", "Minimize number of HTTP requests", "major"⟩,
   ⟨"perf-005", "Gzip Compression", "Text resources are compressed", "major"⟩,
   ⟨"perf-006", "Browser Caching", "Static resources have cache headers", "major"⟩,
   ⟨"perf-007", "Render Blocking Resources", "Minimize render-blocking CSS and JavaScript", "major"⟩,
   ⟨"perf-008", "CDN Usage", "Static assets served from CDN", "minor"⟩]

/-- The seo criteria: seo-001, seo-002 plus extended seo-003, seo-004. -/
def seoCriteria : List Criterion :=
  [⟨"seo-001", "Title Tag", "Page has unique and descriptive title", "critical"⟩,
   ⟨"seo-002", "Meta Description", "Page has compelling meta description", "major"⟩,
   ⟨"seo-003", "Canonical URL", "Page has canonical URL specified", "major"⟩,
   ⟨"seo-004", "Open Graph Tags", "Open Graph meta tags for social sharing", "minor"⟩]

/-- The security criteria: sec-001, sec-002 plus extended sec-003. -/
def securityCriteria : List Criterion :=
  [⟨"sec-001", "HTTPS Usage", "Site uses HTTPS protocol", "critical"⟩,
   ⟨"sec-002", "Security Headers", "Essential security headers are present", "major"⟩,
   ⟨"sec-003", "Mixed Content", "No mixed content (HTTP resources on HTTPS page)", "major"⟩]

/-- The usability criteria: use-001, use-002 plus extended use-003. -/
def usabilityCriteria : List Criterion :=
  [⟨"use-001", "Mobile Responsive", "Site is mobile responsive", "critical"⟩,
   ⟨"use-002", "Navigation Structure", "Clear and consistent navigation", "major"⟩,
   ⟨"use-003", "Touch Target Size", "Touch targets are at least 44x44 pixels", "major"⟩]

/-- The merged registry exported by evaluationCriteriaExtended and imported by
playwrightService.js, in `Object.entries` (insertion) order. -/
def fullEvaluationCriteria : List (String × List Criterion) :=
  [("accessibility", accessibilityCriteria),
   ("performance", performanceCriteria),
   ("seo", seoCriteria),
   ("security", securityCriteria),
   ("usability", usabilityCriteria)]

/-- Viewport descriptor as validated by the analyze controller and consumed by
`takeScreenshots`. -/
structure Viewport where
  name : String
  width : Nat
  height : Nat
  deriving Repr, DecidableEq

/-- One entry of the array returned by `takeScreenshots`
(playwrightService.js lines 207-227): either the success shape with a GCS url,
byte size and filename, or the error shape with `error` set, `gcs_url: null`
and `size_bytes: 0` (no `filename` field). -/
structure ScreenshotResult where
  viewport : String
  width : Nat
  height : Nat
  gcs_url : Option String
  size_bytes : Nat
  error : Option String
  filename : Option String
  deriving Repr, DecidableEq

/-- The canonical default viewports of `takeScreenshots`
(playwrightService.js lines 176-181). -/
def defaultViewports : List Viewport :=
  [⟨"mobile", 375, 667⟩,
   ⟨"tablet", 768, 1024⟩,
   ⟨"desktop", 1920, 1080⟩,
   ⟨"4k", 3840, 2160⟩]

/-- Dynamic behaviour of the resize/settle/capture/upload sequence for one
viewport, supplied by the environment: either the screenshot buffer length and
the GCS url returned by `gcsService.uploadScreenshot`, or the message of the
first error thrown in the sequence. -/
def ShotBehavior : Type := Viewport → Except String (Nat × String)

/-- Loop body of `takeScreenshots` for one viewport (playwrightService.js
lines 185-229): set the page viewport, then on success push the populated
entry, on any thrown error push the error entry for this viewport only.  The
`setViewportSize` call is the first awaited action of the body, so the page
state change is modelled as taking effect on both branches. -/
def screenshotStep (analysisId : String) (shot : ShotBehavior)
    (acc : List ScreenshotResult × PageSt) (v : Viewport) :
    List ScreenshotResult × PageSt :=
  let page' : PageSt := ⟨(v.width, v.height)⟩
  match shot v with
  | .ok (len, url) =>
      (acc.1 ++ [{ viewport := v.name
                   width := v.width
                   height := v.height
                   gcs_url := some url
                   size_bytes := len
                   error := none
                   filename := some ("screenshots/" ++ analysisId ++ "-" ++ v.name ++ ".png") }],
       page')
  | .error msg =>
      (acc.1 ++ [{ viewport := v.name
                   width := v.width
                   height := v.height
                   gcs_url := none
                   size_bytes := 0
                   error := some msg
                   filename := none }],
       page')

/-- `takeScreenshots(page, analysisId, viewports)` (playwrightService.js lines
174-232): defaults to the canonical four viewports when the caller supplies an
empty list, then processes each target viewport in order, isolating per-
viewport failures. -/
def takeScreenshots (analysisId : String) (viewports : List Viewport)
    (shot : ShotBehavior) (page0 : PageSt) : List ScreenshotResult × PageSt :=
  let targetViewports := if viewports.length > 0 then viewports else defaultViewports
  targetViewports.foldl (screenshotStep analysisId shot) ([], page0)

/-- Response observed by `page.goto`: HTTP status and status text.  Playwright
`response.ok()` means the status is in the range 200-299. -/
structure NavResponse where
  status : Nat
  statusText : String
  deriving Repr, DecidableEq

/-- `response.ok()` of the navigation response (status in 200-299). -/
def responseOk (r : NavResponse) : Bool :=
  200 ≤ r.status ∧ r.status ≤ 299

/-- Typed application error as constructed in playwrightService.js via
`new AppError(message, statusCode, code)` (middleware/errorHandler.js); the
`details` object is omitted from the model. -/
structure AppError where
  message : String
  statusCode : Nat
  code : String
  deriving Repr, DecidableEq

/-- Raw performance metrics gathered by `getPerformanceMetrics`; the function
catches every failure internally and always returns a metrics object, so it is
modelled as plain environment data. -/
structure PerfMetrics where
  loadTime : Int
  domContentLoaded : Int
  firstContentfulPaint : Int
  largestContentfulPaint : Int
  domElements : Nat
  networkRequests : Nat
  documentSize : Nat
  deriving Repr, DecidableEq

/-- Environment of one `analyzeUrl` run: everything the browser, the storage
collaborator and the clocks decide.  `navOutcome` is the behaviour of
`page.goto` (`.error msg` models a thrown navigation error with message `msg`,
`.ok none` a null response, `.ok (some r)` a response); `waitFor` is
`options.waitFor`; `waitForSelectorOutcome` is the behaviour of
`page.waitForSelector`; `networkIdleOk` is whether the networkidle wait
finished within its 15000 ms budget; `navigationTime` is the measured
`Date.now() - navigationStartTime`; `now` is the abstracted `Date.now()` read
when evaluation starts; `initialViewport` is the context default viewport. -/
structure Env where
  navOutcome : Except String (Option NavResponse)
  waitFor : Option String
  waitForSelectorOutcome : Except String Unit
  networkIdleOk : Bool
  viewports : List Viewport
  shot : ShotBehavior
  check : CheckBehavior
  navigationTime : Int
  now : Int
  metrics : PerfMetrics
  timestamp : String
  totalTime : Int
  initialViewport : Nat × Nat

/-- Successful result object returned by `analyzeUrl` (playwrightService.js
lines 134-143). -/
structure AnalysisRun where
  url : String
  analysisId : String
  timestamp : String
  screenshots : List ScreenshotResult
  analysis : Analysis
  performance : PerfMetrics
  processingTime : Int
  deriving Repr, DecidableEq

/-- Observable outcome of one `analyzeUrl` call: the value returned or the
`AppError` thrown, whether `context.close()` was executed, the warnings logged
by the two best-effort waits, and the trace of check invocations performed. -/
structure RunOutput where
  result : Except AppError AnalysisRun
  contextClosed : Bool
  warnings : List String
  evalTrace : List Invocation
  deriving Repr

/-- String containment test (`String.prototype.includes`), via `splitOn`. -/
def strContains (s pat : String) : Bool :=
  (s.splitOn pat).length != 1

/-- Catch clause of `analyzeUrl` for a non-AppError thrown by navigation
(playwrightService.js lines 152-170): timeout messages become a 504
TIMEOUT_ERROR, `net::` messages a 502 NETWORK_ERROR, anything else a 500
ANALYSIS_ERROR. -/
def classifyGotoError (msg : String) : AppError :=
  if strContains msg "timeout" then ⟨"Page load timeout", 504, "TIMEOUT_ERROR"⟩
  else if strContains msg "net::" then ⟨"Network error", 502, "NETWORK_ERROR"⟩
  else ⟨"Analysis failed", 500, "ANALYSIS_ERROR"⟩

/-- `analyzeUrl(url, viewports, options)` (playwrightService.js lines 48-172).
The context and page are created first; then navigation: a thrown goto error
is classified by the catch clause, a null response throws PAGE_LOAD_FAILED
(502), a non-2xx response throws HTTP_ERROR (502) — in all three failure cases
the function unwinds through the catch without ever reaching the
`context.close()` call at line 124, which sits inside the `try` block after
evaluation (there is no `finally`).  On a 2xx response the two best-effort
waits run (their failures are logged and swallowed), then screenshots, then
the 33-criterion evaluation, then `context.close()`, then the result object is
returned. -/
def analyzeUrl (url analysisId : String) (env : Env) : RunOutput :=
  let page0 : PageSt := ⟨env.initialViewport⟩
  match env.navOutcome with
  | .error msg =>
      { result := .error (classifyGotoError msg)
        contextClosed := false
        warnings := []
        evalTrace := [] }
  | .ok none =>
      { result := .error ⟨"Failed to load page", 502, "PAGE_LOAD_FAILED"⟩
        contextClosed := false
        warnings := []
        evalTrace := [] }
  | .ok (some r) =>
      if responseOk r then
        let selectorWarnings : List String :=
          match env.waitFor, env.waitForSelectorOutcome with
          | some sel, .error _ => ["Wait for selector failed: " ++ sel]
          | _, _ => []
        let idleWarnings : List String :=
          if env.networkIdleOk then [] else ["Network idle timeout - continuing with analysis"]
        let shots := takeScreenshots analysisId env.viewports env.shot page0
        let evalOut := performEvaluation fullEvaluationCriteria env.check
          env.navigationTime env.now shots.2
        { result := .ok
            { url := url
              analysisId := analysisId
              timestamp := env.timestamp
              screenshots := shots.1
              analysis := evalOut.analysis
              performance := env.metrics
              processingTime := env.totalTime }
          contextClosed := true
          warnings := selectorWarnings ++ idleWarnings
          evalTrace := evalOut.trace }
      else
        { result := .error ⟨"HTTP " ++ toString r.status ++ ": " ++ r.statusText, 502, "HTTP_ERROR"⟩
          contextClosed := false
          warnings := []
          evalTrace := [] }

/-! Specification-side definitions used to state the claims, and concrete
fixtures used by the witnesses.  These are comparison targets written from the
claim sentences, kept clearly separate from the source translation above. -/

/-- Provenance key of an evaluation result: the (category, criterion id) pair
it was produced for. -/
def keyOf (r : EvaluationResult) : String × String :=
  (r.category, r.id)

/-- The (category, id) pairs of all criteria registered in a registry, in
iteration order: the expected provenance keys of a complete run. -/
def registryKeys (registry : List (String × List Criterion)) : List (String × String) :=
  registry.foldr (fun p acc => p.2.map (fun c => (p.1, c.id)) ++ acc) []

/-- Shape demanded of error-status evaluation results by the spec: zero
`checkTime`, the single generic recommendation, and details describing the
failure. -/
def errShape (r : EvaluationResult) : Prop :=
  r.status = "error" →
    r.checkTime = 0 ∧
    r.recommendations = ["Unable to evaluate - check page accessibility"] ∧
    ∃ msg, r.details = "Evaluation failed: " ++ msg

/-- Well-formedness of the evaluation loop state: the counters agree with the
results array (used to prove the summary invariants). -/
def stWf (s : EvalState) : Prop :=
  s.totalItems = s.results.length ∧
  s.passedItems = List.countP (fun r => r.status == "pass") s.results

/-- Expected screenshot entry for one viewport, written from the spec of the
screenshot capturer: a populated entry on success, an error-marked entry on
failure, for this viewport only. -/
def screenshotEntrySpec (analysisId : String) (shot : ShotBehavior)
    (v : Viewport) : ScreenshotResult :=
  match shot v with
  | .ok (len, url) =>
      { viewport := v.name
        width := v.width
        height := v.height
        gcs_url := some url
        size_bytes := len
        error := none
        filename := some ("screenshots/" ++ analysisId ++ "-" ++ v.name ++ ".png") }
  | .error msg =>
      { viewport := v.name
        width := v.width
        height := v.height
        gcs_url := none
        size_bytes := 0
        error := some msg
        filename := none }

/-- Pure description of the invocation trace of one category loop: entry
viewports evolve by `viewportEffect` as checks run. -/
def tracePure (tb : Int) (cat : String) : List Criterion → Nat × Nat → List Invocation
  | [], _ => []
  | c :: rest, v =>
      ⟨cat, c.id, if c.id = "perf-001" then some tb else none, v⟩ ::
        tracePure tb cat rest (viewportEffect c.id v)

/-- Viewport after running one category of checks. -/
def pagePureCat : List Criterion → Nat × Nat → Nat × Nat
  | [], v => v
  | c :: rest, v => pagePureCat rest (viewportEffect c.id v)

/-- Pure description of the invocation trace of the whole registry loop. -/
def tracePureReg (tb : Int) : List (String × List Criterion) → Nat × Nat → List Invocation
  | [], _ => []
  | p :: rest, v => tracePure tb p.1 p.2 v ++ tracePureReg tb rest (pagePureCat p.2 v)

/-- Environment with the two best-effort wait outcomes replaced. -/
def withWaits (env : Env) (o : Except String Unit) (n : Bool) : Env :=
  { env with waitForSelectorOutcome := o, networkIdleOk := n }

/-- Placeholder evaluation result used to index into concrete result lists in
witnesses. -/
def dummyResult : EvaluationResult :=
  ⟨"", "", "", "", "", "", "", [], 0⟩

/-- Fixture criterion whose check passes (67-criterion scoring scenario). -/
def critPass : Criterion := ⟨"crit-pass", "Pass fixture", "", "minor"⟩

/-- Fixture criterion whose check fails (67-criterion scoring scenario). -/
def critFail : Criterion := ⟨"crit-fail", "Fail fixture", "", "minor"⟩

/-- Fixture criterion whose check throws (67-criterion scoring scenario). -/
def critErr : Criterion := ⟨"crit-err", "Error fixture", "", "minor"⟩

/-- Registry of the spec scenario: 67 criteria, of which 45 pass, 20 fail and
2 throw. -/
def reg67 : List (String × List Criterion) :=
  [("fixtures", List.replicate 45 critPass ++ List.replicate 20 critFail ++
      List.replicate 2 critErr)]

/-- Check behaviour of the 67-criterion scenario. -/
def b67 : CheckBehavior := fun id =>
  if id = "crit-pass" then .ok (⟨"pass", "ok", none⟩, 1)
  else if id = "crit-fail" then .ok (⟨"fail", "not ok", none⟩, 1)
  else .error "boom"

/-- Check behaviour that throws on every criterion (error-shape witness). -/
def bAllErr : CheckBehavior := fun _ => .error "boom"

/-- Shot behaviour that succeeds on every viewport (fixture). -/
def shotAllOk : ShotBehavior := fun _ => .ok (100, "https://storage/shot.png")

/-- Check behaviour that passes on every criterion (fixture). -/
def checkAllPass : CheckBehavior := fun _ => .ok (⟨"pass", "ok", none⟩, 3)

/-- Fully successful concrete environment: 200 response, both waits succeed,
default viewports, all screenshots and checks succeed. -/
def envBase : Env where
  navOutcome := .ok (some ⟨200, "OK"⟩)
  waitFor := some "main"
  waitForSelectorOutcome := .ok ()
  networkIdleOk := true
  viewports := []
  shot := shotAllOk
  check := checkAllPass
  navigationTime := 100
  now := 1000
  metrics := ⟨0, 0, 0, 0, 0, 0, 0⟩
  timestamp := "2025-01-01T00:00:00.000Z"
  totalTime := 1234
  initialViewport := (1280, 720)

/-- Concrete environment whose navigation returns HTTP 500. -/
def env500 : Env :=
  { envBase with navOutcome := .ok (some ⟨500, "Internal Server Error"⟩) }

/-! Helper lemmas about the evaluation loop. -/

theorem evalStep_wf {b : CheckBehavior} {tb : Int} {cat : String} {c : Criterion}
    {s : EvalState} (h : stWf s) : stWf (evalStep b tb cat c s) := by
  obtain ⟨h1, h2⟩ := h
  unfold evalStep
  cases hb : b c.id with
  | ok p =>
      obtain ⟨outcome, elapsed⟩ := p
      refine ⟨by simp [h1], ?_⟩
      simp only [List.countP_append, List.countP_cons, List.countP_nil, h2]
      by_cases hs : outcome.status = "pass" <;> simp [hs]
  | error msg =>
      refine ⟨by simp [h1], ?_⟩
      simp [List.countP_append, List.countP_cons, h2]

theorem runCriteria_wf (b : CheckBehavior) (tb : Int) (cat : String) :
    ∀ (crits : List Criterion) (s : EvalState), stWf s →
      stWf (runCriteria b tb cat crits s) := by
  intro crits
  induction crits with
  | nil => intro s h; exact h
  | cons c rest ih =>
      intro s h
      exact ih (evalStep b tb cat c s) (evalStep_wf h)

theorem runRegistry_wf (b : CheckBehavior) (tb : Int) :
    ∀ (registry : List (String × List Criterion)) (s : EvalState), stWf s →
      stWf (runRegistry b tb registry s) := by
  intro registry
  induction registry with
  | nil => intro s h; exact h
  | cons p rest ih =>
      intro s h
      exact ih (runCriteria b tb p.1 p.2 s) (runCriteria_wf b tb p.1 p.2 s h)

theorem evalStep_keys (b : CheckBehavior) (tb : Int) (cat : String)
    (c : Criterion) (s : EvalState) :
    (evalStep b tb cat c s).results.map keyOf
      = s.results.map keyOf ++ [(cat, c.id)] := by
  unfold evalStep
  cases hb : b c.id with
  | ok p => obtain ⟨outcome, elapsed⟩ := p; simp [keyOf]
  | error msg => simp [keyOf]

theorem runCriteria_keys (b : CheckBehavior) (tb : Int) (cat : String) :
    ∀ (crits : List Criterion) (s : EvalState),
      (runCriteria b tb cat crits s).results.map keyOf
        = s.results.map keyOf ++ crits.map (fun c => (cat, c.id)) := by
  intro crits
  induction crits with
  | nil => intro s; simp [runCriteria]
  | cons c rest ih =>
      intro s
      have step : runCriteria b tb cat (c :: rest) s
          = runCriteria b tb cat rest (evalStep b tb cat c s) := rfl
      rw [step, ih, evalStep_keys]
      simp

theorem runRegistry_keys (b : CheckBehavior) (tb : Int) :
    ∀ (registry : List (String × List Criterion)) (s : EvalState),
      (runRegistry b tb registry s).results.map keyOf
        = s.results.map keyOf ++ registryKeys registry := by
  intro registry
  induction registry with
  | nil => intro s; simp [runRegistry, registryKeys]
  | cons p rest ih =>
      intro s
      have step : runRegistry b tb (p :: rest) s
          = runRegistry b tb rest (runCriteria b tb p.1 p.2 s) := rfl
      rw [step, ih, runCriteria_keys]
      simp [registryKeys]

theorem evalStep_errShape {b : CheckBehavior} {tb : Int} {cat : String}
    {c : Criterion} {s : EvalState}
    (hb : ∀ i o t, b i = .ok (o, t) → o.status ≠ "error")
    (h : ∀ r ∈ s.results, errShape r) :
    ∀ r ∈ (evalStep b tb cat c s).results, errShape r := by
  intro r hr
  unfold evalStep at hr
  cases hbc : b c.id with
  | ok p =>
      obtain ⟨outcome, elapsed⟩ := p
      rw [hbc] at hr
      simp only [List.mem_append, List.mem_singleton] at hr
      rcases hr with hr | hr
      · exact h r hr
      · subst hr
        intro hs
        exact absurd hs (hb c.id outcome elapsed hbc)
  | error msg =>
      rw [hbc] at hr
      simp only [List.mem_append, List.mem_singleton] at hr
      rcases hr with hr | hr
      · exact h r hr
      · subst hr
        intro _
        exact ⟨rfl, rfl, msg, rfl⟩

theorem runCriteria_errShape (b : CheckBehavior) (tb : Int) (cat : String)
    (hb : ∀ i o t, b i = .ok (o, t) → o.status ≠ "error") :
    ∀ (crits : List Criterion) (s : EvalState),
      (∀ r ∈ s.results, errShape r) →
      ∀ r ∈ (runCriteria b tb cat crits s).results, errShape r := by
  intro crits
  induction crits with
  | nil => intro s h; exact h
  | cons c rest ih =>
      intro s h
      exact ih (evalStep b tb cat c s) (evalStep_errShape hb h)

theorem runRegistry_errShape (b : CheckBehavior) (tb : Int)
    (hb : ∀ i o t, b i = .ok (o, t) → o.status ≠ "error") :
    ∀ (registry : List (String × List Criterion)) (s : EvalState),
      (∀ r ∈ s.results, errShape r) →
      ∀ r ∈ (runRegistry b tb registry s).results, errShape r := by
  intro registry
  induction registry with
  | nil => intro s h; exact h
  | cons p rest ih =>
      intro s h
      exact ih (runCriteria b tb p.1 p.2 s) (runCriteria_errShape b tb p.1 hb p.2 s h)

theorem evalStep_trace (b : CheckBehavior) (tb : Int) (cat : String)
    (c : Criterion) (s : EvalState) :
    (evalStep b tb cat c s).trace
      = s.trace ++ [⟨cat, c.id, if c.id = "perf-001" then some tb else none,
          s.page.viewport⟩] := by
  unfold evalStep
  cases hb : b c.id with
  | ok p => obtain ⟨outcome, elapsed⟩ := p; simp
  | error msg => simp

theorem evalStep_page (b : CheckBehavior) (tb : Int) (cat : String)
    (c : Criterion) (s : EvalState) :
    (evalStep b tb cat c s).page = ⟨viewportEffect c.id s.page.viewport⟩ := by
  unfold evalStep
  cases hb : b c.id with
  | ok p => obtain ⟨outcome, elapsed⟩ := p; simp
  | error msg => simp

theorem runCriteria_trace (b : CheckBehavior) (tb : Int) (cat : String) :
    ∀ (crits : List Criterion) (s : EvalState),
      (runCriteria b tb cat crits s).trace
          = s.trace ++ tracePure tb cat crits s.page.viewport
        ∧ (runCriteria b tb cat crits s).page.viewport
          = pagePureCat crits s.page.viewport := by
  intro crits
  induction crits with
  | nil => intro s; simp [runCriteria, tracePure, pagePureCat]
  | cons c rest ih =>
      intro s
      have step : runCriteria b tb cat (c :: rest) s
          = runCriteria b tb cat rest (evalStep b tb cat c s) := rfl
      obtain ⟨iht, ihp⟩ := ih (evalStep b tb cat c s)
      constructor
      · rw [step, iht, evalStep_trace, evalStep_page]
        simp [tracePure]
      · rw [step, ihp, evalStep_page]
        simp [pagePureCat]

theorem runRegistry_trace (b : CheckBehavior) (tb : Int) :
    ∀ (registry : List (String × List Criterion)) (s : EvalState),
      (runRegistry b tb registry s).trace
          = s.trace ++ tracePureReg tb registry s.page.viewport := by
  intro registry
  induction registry with
  | nil => intro s; simp [runRegistry, tracePureReg]
  | cons p rest ih =>
      intro s
      have step : runRegistry b tb (p :: rest) s
          = runRegistry b tb rest (runCriteria b tb p.1 p.2 s) := rfl
      obtain ⟨ht, hp⟩ := runCriteria_trace b tb p.1 p.2 s
      rw [step, ih, ht, hp]
      simp [tracePureReg]

theorem performEvaluation_trace (registry : List (String × List Criterion))
    (b : CheckBehavior) (nt now : Int) (p0 : PageSt) :
    (performEvaluation registry b nt now p0).trace
      = tracePureReg (now - nt) registry p0.viewport := by
  have base : (performEvaluation registry b nt now p0).trace
      = (runRegistry b (now - nt) registry ⟨[], 0, 0, [], p0⟩).trace := rfl
  rw [base, runRegistry_trace]
  simp

/-! Claim theorems. -/

/-- Claim C1: for every completed analysis run, the summary satisfies
`summary.passed + summary.failed = summary.total = length of the results
list`, where `passed` counts exactly the results with status "pass". -/
theorem claim_C1_summary_invariant (registry : List (String × List Criterion))
    (b : CheckBehavior) (nt now : Int) (p0 : PageSt) :
    (performEvaluation registry b nt now p0).analysis.summary.passed
        + (performEvaluation registry b nt now p0).analysis.summary.failed
      = (performEvaluation registry b nt now p0).analysis.summary.total
    ∧ (performEvaluation registry b nt now p0).analysis.summary.total
      = (performEvaluation registry b nt now p0).analysis.items.length
    ∧ (performEvaluation registry b nt now p0).analysis.summary.passed
      = List.countP (fun r => r.status == "pass")
          (performEvaluation registry b nt now p0).analysis.items := by
  have key : ∀ s : EvalState, stWf s →
      s.passedItems + (s.totalItems - s.passedItems) = s.totalItems
      ∧ s.totalItems = s.results.length
      ∧ s.passedItems = List.countP (fun r => r.status == "pass") s.results := by
    intro s hs
    obtain ⟨h1, h2⟩ := hs
    have hle : s.passedItems ≤ s.totalItems := by
      rw [h1, h2]; exact List.countP_le_length _
    exact ⟨by omega, h1, h2⟩
  exact key (runRegistry b (now - nt) registry ⟨[], 0, 0, [], p0⟩)
    (runRegistry_wf b (now - nt) registry _ ⟨by simp, by simp⟩)

/-- Claim C2: for every evaluation over a list of criteria, the summary score
is the half-up rounding of `passed / total × 100` (the exact-rational model of
`Math.round((passedItems / totalItems) * 100)`), and is 0 when the total is 0;
in particular 67 criteria of which 45 pass (20 fail, 2 throw) score 67, and an
empty registry yields the all-zero summary. -/
theorem claim_C2_score_formula (registry : List (String × List Criterion))
    (b : CheckBehavior) (nt now : Int) (p0 : PageSt) :
    ((performEvaluation registry b nt now p0).analysis.summary.score
      = if (performEvaluation registry b nt now p0).analysis.items.length = 0 then 0
        else jsRound100
          (List.countP (fun r => r.status == "pass")
            (performEvaluation registry b nt now p0).analysis.items)
          (performEvaluation registry b nt now p0).analysis.items.length)
    ∧ (performEvaluation reg67 b67 0 0 ⟨(0, 0)⟩).analysis.summary.score = 67
    ∧ jsRound100 45 67 = 67
    ∧ (performEvaluation [] b nt now p0).analysis.summary
      = ⟨0, 0, 0, 0, ⟨0, 0, 0, 0, 0⟩⟩ := by
  refine ⟨?_, by decide, by decide, rfl⟩
  have key : ∀ s : EvalState, stWf s →
      (if s.totalItems > 0 then jsRound100 s.passedItems s.totalItems else 0)
        = if s.results.length = 0 then 0
          else jsRound100 (List.countP (fun r => r.status == "pass") s.results)
            s.results.length := by
    intro s hs
    obtain ⟨h1, h2⟩ := hs
    rw [← h1, ← h2]
    by_cases h0 : s.totalItems = 0
    · simp [h0]
    · have hpos : s.totalItems > 0 := Nat.pos_of_ne_zero h0
      simp [hpos, h0]
  exact key (runRegistry b (now - nt) registry ⟨[], 0, 0, [], p0⟩)
    (runRegistry_wf b (now - nt) registry _ ⟨by simp, by simp⟩)

/-- Claim C3: for every check behaviour — including one that throws on any
subset of the criteria — every registered criterion yields exactly one
evaluation result, in registry order: the provenance keys of the results list
are exactly the (category, id) pairs of the registry, so no criterion is
silently dropped and a thrown check never aborts the remaining criteria. -/
theorem claim_C3_no_silent_drops (registry : List (String × List Criterion))
    (b : CheckBehavior) (nt now : Int) (p0 : PageSt) :
    (performEvaluation registry b nt now p0).analysis.items.map keyOf
      = registryKeys registry := by
  have base : (performEvaluation registry b nt now p0).analysis.items
      = (runRegistry b (now - nt) registry ⟨[], 0, 0, [], p0⟩).results := rfl
  rw [base, runRegistry_keys]
  simp

/-- Claim C4: under the registry contract that check outcomes never carry the
reserved status "error" (every check in the registry returns one of "pass",
"fail", "warning", "info"), every evaluation result with status "error" was
synthesized by the catch branch: its `checkTime` is 0, its recommendations
list is the single generic unable-to-evaluate entry (in particular non-empty),
and its details describe the failure. -/
theorem claim_C4_error_result_shape (registry : List (String × List Criterion))
    (b : CheckBehavior) (nt now : Int) (p0 : PageSt)
    (hb : ∀ i o t, b i = .ok (o, t) → o.status ≠ "error") :
    ∀ r ∈ (performEvaluation registry b nt now p0).analysis.items,
      r.status = "error" →
        r.checkTime = 0
        ∧ r.recommendations = ["Unable to evaluate - check page accessibility"]
        ∧ ∃ msg, r.details = "Evaluation failed: " ++ msg := by
  have base : (performEvaluation registry b nt now p0).analysis.items
      = (runRegistry b (now - nt) registry ⟨[], 0, 0, [], p0⟩).results := rfl
  rw [base]
  exact runRegistry_errShape b (now - nt) hb registry _ (by intro r hr; cases hr)

/-- Witness for claim C4: a concrete run over the security criteria in which
every check throws; its first result has status "error", zero check time and
the generic recommendation. -/
theorem claim_C4_witness :
    (((performEvaluation [("security", securityCriteria)] bAllErr 0 0
        ⟨(0, 0)⟩).analysis.items.getD 0 dummyResult).checkTime = 0
      ∧ ((performEvaluation [("security", securityCriteria)] bAllErr 0 0
          ⟨(0, 0)⟩).analysis.items.getD 0 dummyResult).recommendations
        = ["Unable to evaluate - check page accessibility"]
      ∧ ∃ msg, ((performEvaluation [("security", securityCriteria)] bAllErr 0 0
          ⟨(0, 0)⟩).analysis.items.getD 0 dummyResult).details
        = "Evaluation failed: " ++ msg) :=
  claim_C4_error_result_shape [("security", securityCriteria)] bAllErr 0 0 ⟨(0, 0)⟩
    (by intro i o t h; simp [bAllErr] at h)
    ((performEvaluation [("security", securityCriteria)] bAllErr 0 0
      ⟨(0, 0)⟩).analysis.items.getD 0 dummyResult)
    (by decide)
    (by decide)

/-- Claim C5: whenever navigation returns no response or a non-2xx response,
`analyzeUrl` throws a typed 502 AppError (PAGE_LOAD_FAILED or HTTP_ERROR)
before any criterion check is invoked: the caller receives the error, no
evaluation result is produced (the invocation trace is empty), and no
successful analysis value exists. -/
theorem claim_C5_navigation_failure_aborts (url aid : String) (env : Env)
    (h : env.navOutcome = .ok none
      ∨ ∃ r, env.navOutcome = .ok (some r) ∧ responseOk r = false) :
    (∃ e, (analyzeUrl url aid env).result = .error e
        ∧ e.statusCode = 502
        ∧ (e.code = "PAGE_LOAD_FAILED" ∨ e.code = "HTTP_ERROR"))
    ∧ (analyzeUrl url aid env).evalTrace = [] := by
  rcases h with h | ⟨r, h, hok⟩
  · refine ⟨⟨⟨"Failed to load page", 502, "PAGE_LOAD_FAILED"⟩, ?_, rfl, Or.inl rfl⟩, ?_⟩
    · simp [analyzeUrl, h]
    · simp [analyzeUrl, h]
  · refine ⟨⟨⟨"HTTP " ++ toString r.status ++ ": " ++ r.statusText, 502, "HTTP_ERROR"⟩,
      ?_, rfl, Or.inr rfl⟩, ?_⟩
    · simp [analyzeUrl, h, hok]
    · simp [analyzeUrl, h, hok]

/-- Witness for claim C5: a concrete run whose navigation returns HTTP 500
aborts with a 502 AppError and an empty invocation trace. -/
theorem claim_C5_witness :
    (∃ e, (analyzeUrl "https://example.com" "id-1" env500).result = .error e
        ∧ e.statusCode = 502
        ∧ (e.code = "PAGE_LOAD_FAILED" ∨ e.code = "HTTP_ERROR"))
    ∧ (analyzeUrl "https://example.com" "id-1" env500).evalTrace = [] :=
  claim_C5_navigation_failure_aborts "https://example.com" "id-1" env500
    (Or.inr ⟨⟨500, "Internal Server Error"⟩, rfl, rfl⟩)

/-- Claim C6 (code bug): the source closes the browser context only on the
success path — `await context.close()` sits inside the `try` block after
evaluation (playwrightService.js line 124) and there is no `finally` — so on a
failed run (here: navigation returning HTTP 500) the context is never closed,
contradicting the guaranteed-release requirement; the sibling TypeScript
service closes the context in a `finally` block, confirming the intent.  On a
fully successful run the context is closed. -/
theorem claim_C6_context_close_only_on_success :
    (analyzeUrl "https://example.com" "id-1" env500).result
        = .error ⟨"HTTP 500: Internal Server Error", 502, "HTTP_ERROR"⟩
    ∧ (analyzeUrl "https://example.com" "id-1" env500).contextClosed = false
    ∧ (analyzeUrl "https://example.com" "id-1" envBase).contextClosed = true := by
  exact ⟨rfl, rfl, rfl⟩

/-- Claim C7: screenshot capture over any viewport list (the canonical four
when the caller supplies none) produces exactly one entry per target viewport,
in order: each entry is the populated success entry or — when that viewport's
resize/capture/store throws — the error-marked entry for that viewport only,
with all subsequent viewports still processed. -/
theorem claim_C7_screenshots_per_viewport (aid : String) (vs : List Viewport)
    (shot : ShotBehavior) (p0 : PageSt) :
    (takeScreenshots aid vs shot p0).1
      = (if vs.length > 0 then vs else defaultViewports).map
          (screenshotEntrySpec aid shot)
    ∧ (takeScreenshots aid vs shot p0).1.map (fun s => s.viewport)
      = (if vs.length > 0 then vs else defaultViewports).map (fun v => v.name)
    ∧ (takeScreenshots aid vs shot p0).1.length
      = (if vs.length > 0 then vs else defaultViewports).length
    ∧ (takeScreenshots aid [] shot p0).1.length = 4 := by
  have fold : ∀ (l : List Viewport) (acc : List ScreenshotResult) (pg : PageSt),
      (l.foldl (screenshotStep aid shot) (acc, pg)).1
        = acc ++ l.map (screenshotEntrySpec aid shot) := by
    intro l
    induction l with
    | nil => intro acc pg; simp
    | cons v rest ih =>
        intro acc pg
        have step : (v :: rest).foldl (screenshotStep aid shot) (acc, pg)
            = rest.foldl (screenshotStep aid shot) (screenshotStep aid shot (acc, pg) v) := rfl
        rw [step]
        cases hv : shot v with
        | ok p =>
            obtain ⟨len, u⟩ := p
            have : screenshotStep aid shot (acc, pg) v
                = (acc ++ [screenshotEntrySpec aid shot v], ⟨(v.width, v.height)⟩) := by
              simp [screenshotStep, screenshotEntrySpec, hv]
            rw [this, ih]
            simp
        | error msg =>
            have : screenshotStep aid shot (acc, pg) v
                = (acc ++ [screenshotEntrySpec aid shot v], ⟨(v.width, v.height)⟩) := by
              simp [screenshotStep, screenshotEntrySpec, hv]
            rw [this, ih]
            simp
  have hname : ∀ v : Viewport, (screenshotEntrySpec aid shot v).viewport = v.name := by
    intro v
    cases hv : shot v with
    | ok p => obtain ⟨len, u⟩ := p; simp [screenshotEntrySpec, hv]
    | error msg => simp [screenshotEntrySpec, hv]
  have main : (takeScreenshots aid vs shot p0).1
      = (if vs.length > 0 then vs else defaultViewports).map
          (screenshotEntrySpec aid shot) := by
    have base : takeScreenshots aid vs shot p0
        = (if vs.length > 0 then vs else defaultViewports).foldl
            (screenshotStep aid shot) ([], p0) := rfl
    rw [base, fold]
    simp
  have mainNil : (takeScreenshots aid [] shot p0).1
      = defaultViewports.map (screenshotEntrySpec aid shot) := by
    have base : takeScreenshots aid [] shot p0
        = defaultViewports.foldl (screenshotStep aid shot) ([], p0) := rfl
    rw [base, fold]
    simp
  refine ⟨main, ?_, ?_, ?_⟩
  · rw [main, List.map_map]
    exact List.map_congr_left (fun v _ => hname v)
  · rw [main, List.length_map]
  · rw [mainNil, List.length_map]
    rfl

/-- Claim C8: the two post-navigation waits are best-effort: the thrown or
successful outcome of `page.waitForSelector` and of the networkidle wait never
changes the run's result or its evaluation (only warnings differ), an elapsed
networkidle budget adds exactly the logged-and-ignored warning, and a failing
selector wait adds only a warning naming the selector, after which evaluation
proceeds. -/
theorem claim_C8_best_effort_waits (url aid : String) (env : Env)
    (o1 o2 : Except String Unit) (n1 n2 : Bool) :
    ((analyzeUrl url aid (withWaits env o1 n1)).result
        = (analyzeUrl url aid (withWaits env o2 n2)).result)
    ∧ ((analyzeUrl url aid (withWaits env o1 n1)).evalTrace
        = (analyzeUrl url aid (withWaits env o2 n2)).evalTrace)
    ∧ (∀ r, env.navOutcome = .ok (some r) → responseOk r = true →
        "Network idle timeout - continuing with analysis"
          ∈ (analyzeUrl url aid (withWaits env o1 false)).warnings)
    ∧ (∀ r sel msg, env.navOutcome = .ok (some r) → responseOk r = true →
        env.waitFor = some sel →
        ("Wait for selector failed: " ++ sel)
          ∈ (analyzeUrl url aid (withWaits env (.error msg) n1)).warnings) := by
  refine ⟨?_, ?_, ?_, ?_⟩
  · cases h : env.navOutcome with
    | error msg => simp [analyzeUrl, withWaits, h]
    | ok ro =>
        cases ro with
        | none => simp [analyzeUrl, withWaits, h]
        | some r =>
            by_cases hok : responseOk r
            · simp [analyzeUrl, withWaits, h, hok]
            · simp [analyzeUrl, withWaits, h, hok]
  · cases h : env.navOutcome with
    | error msg => simp [analyzeUrl, withWaits, h]
    | ok ro =>
        cases ro with
        | none => simp [analyzeUrl, withWaits, h]
        | some r =>
            by_cases hok : responseOk r
            · simp [analyzeUrl, withWaits, h, hok]
            · simp [analyzeUrl, withWaits, h, hok]
  · intro r h hok
    simp [analyzeUrl, withWaits, h, hok]
  · intro r sel msg h hok hsel
    simp [analyzeUrl, withWaits, h, hok, hsel]

/-- Witness for claim C8: on the concrete successful environment, failing the
networkidle wait adds its warning and failing the selector wait adds the
selector warning; and both failures leave the run result identical to the
all-successful run. -/
theorem claim_C8_witness :
    ("Network idle timeout - continuing with analysis"
        ∈ (analyzeUrl "https://example.com" "id-1" (withWaits envBase (.ok ()) false)).warnings)
    ∧ ("Wait for selector failed: main"
        ∈ (analyzeUrl "https://example.com" "id-1"
            (withWaits envBase (.error "timeout") true)).warnings)
    ∧ ((analyzeUrl "https://example.com" "id-1"
          (withWaits envBase (.error "timeout") false)).result
        = (analyzeUrl "https://example.com" "id-1" (withWaits envBase (.ok ()) true)).result) :=
  ⟨(claim_C8_best_effort_waits "https://example.com" "id-1" envBase
      (.ok ()) (.ok ()) false false).2.2.1 ⟨200, "OK"⟩ rfl rfl,
   (claim_C8_best_effort_waits "https://example.com" "id-1" envBase
      (.error "timeout") (.ok ()) true true).2.2.2 ⟨200, "OK"⟩ "main" "timeout" rfl rfl rfl,
   (claim_C8_best_effort_waits "https://example.com" "id-1" envBase
      (.error "timeout") (.ok ()) false true).1⟩

/-- Claim C9: over the real registry, exactly one invocation carries the extra
timing argument — the perf-001 (Page Load Time) criterion, which receives
`Date.now() - navigationTime` — while all 33 criteria are invoked (so every
other criterion gets the page handle only, its timing argument being
`none`). -/
theorem claim_C9_perf001_timing_argument (b : CheckBehavior) (nt now : Int)
    (p0 : PageSt) :
    (((performEvaluation fullEvaluationCriteria b nt now p0).trace.filter
        (fun i => i.timingArg.isSome)).map (fun i => (i.id, i.timingArg)))
      = [("perf-001", some (now - nt))]
    ∧ (performEvaluation fullEvaluationCriteria b nt now p0).trace.map
        (fun i => i.id)
      = ["a11y-001", "a11y-002", "a11y-003", "a11y-004", "a11y-005", "a11y-006",
         "a11y-007", "a11y-008", "a11y-009", "a11y-010", "a11y-011", "a11y-012",
         "a11y-013", "a11y-014", "a11y-015",
         "perf-001", "perf-002", "perf-003", "perf-004", "perf-005", "perf-006",
         "perf-007", "perf-008",
         "seo-001", "seo-002", "seo-003", "seo-004",
         "sec-001", "sec-002", "sec-003",
         "use-001", "use-002", "use-003"] := by
  constructor
  · rw [performEvaluation_trace]
    simp [tracePureReg, tracePure, pagePureCat, viewportEffect, fullEvaluationCriteria,
      accessibilityCriteria, performanceCriteria, seoCriteria, securityCriteria,
      usabilityCriteria]
  · rw [performEvaluation_trace]
    simp [tracePureReg, tracePure, pagePureCat, viewportEffect, fullEvaluationCriteria,
      accessibilityCriteria, performanceCriteria, seoCriteria, securityCriteria,
      usabilityCriteria]

/-- Claim C10: the use-001 (Mobile Responsive) check sets the live viewport to
375×667 and never restores the previous viewport, so in every run over the
real registry the invocation at index 30 is use-001 observing the pre-existing
viewport, and both checks executed after it (use-002 and use-003) observe the
mutated 375×667 viewport; screenshots are unaffected because `analyzeUrl`
captures all screenshots before evaluation begins, so changing the check
behaviour never changes the screenshots of the run. -/
theorem claim_C10_use001_viewport_mutation (b : CheckBehavior) (nt now : Int)
    (p0 : PageSt) (url aid : String) (env : Env) (b1 b2 : CheckBehavior) :
    (∀ v, viewportEffect "use-001" v = (375, 667))
    ∧ ((performEvaluation fullEvaluationCriteria b nt now p0).trace.map
        (fun i => (i.id, i.viewport)))[30]?
      = some ("use-001", p0.viewport)
    ∧ ((performEvaluation fullEvaluationCriteria b nt now p0).trace.map
        (fun i => (i.id, i.viewport))).drop 31
      = [("use-002", (375, 667)), ("use-003", (375, 667))]
    ∧ ((analyzeUrl url aid { env with check := b1 }).result.map
        (fun run => run.screenshots))
      = ((analyzeUrl url aid { env with check := b2 }).result.map
        (fun run => run.screenshots)) := by
  refine ⟨fun v => rfl, ?_, ?_, ?_⟩
  · rw [performEvaluation_trace]
    simp [tracePureReg, tracePure, pagePureCat, viewportEffect, fullEvaluationCriteria,
      accessibilityCriteria, performanceCriteria, seoCriteria, securityCriteria,
      usabilityCriteria]
  · rw [performEvaluation_trace]
    simp [tracePureReg, tracePure, pagePureCat, viewportEffect, fullEvaluationCriteria,
      accessibilityCriteria, performanceCriteria, seoCriteria, securityCriteria,
      usabilityCriteria]
  · cases h : env.navOutcome with
    | error msg => simp [analyzeUrl, h]
    | ok ro =>
        cases ro with
        | none => simp [analyzeUrl, h]
        | some r =>
            by_cases hok : responseOk r
            · simp [analyzeUrl, h, hok, Except.map]
            · simp [analyzeUrl, h, hok]

end ClaudeDify
